import Mathlib

/-!
Shallow embedding of the LNK (Windows Shell Link) decoder crate:
`src/lib.rs`, `src/shell_link_header.rs`, `src/error.rs`.

Byte buffers are `List Nat` (each element one byte of the input).
Machine integers are `Nat` (unsigned) or `Int` (signed), with widths
handled explicitly where the source relies on them.

Fallible Rust slicing and `assert!` are modelled by an outer `Option`
layer: `none` means the Rust code would panic (out-of-bounds index or
failed assertion); `some (Except.error e)` is a typed decode error and
`some (Except.ok v)` a successful decode.
-/

namespace Lnk

deriving instance DecidableEq for Except

/-- Models `&l[a..b]`: the bounds check of Rust range indexing, `none` on
a bounds violation (Rust would panic). -/
def readSlice (l : List Nat) (a b : Nat) : Option (List Nat) :=
  if a ≤ b ∧ b ≤ l.length then some ((l.drop a).take (b - a)) else none

/-- Models `&l[a..]`. -/
def readSliceFrom (l : List Nat) (a : Nat) : Option (List Nat) :=
  if a ≤ l.length then some (l.drop a) else none

/-- `fn u32_from_input(input: &[u8]) -> u32`: asserts the slice has
exactly 4 bytes (modelled as `none`), then combines them little-endian:
`(input[3] << 24) + (input[2] << 16) + (input[1] << 8) + input[0]`. -/
def u32_from_input (input : List Nat) : Option Nat :=
  match input with
  | [b0, b1, b2, b3] => some (b3 * 2 ^ 24 + b2 * 2 ^ 16 + b1 * 2 ^ 8 + b0)
  | _ => none

/-- `fn i32_from_input(input: &[u8]) -> i32`: same little-endian combine
into a signed 32-bit value (two's-complement reinterpretation of the
unsigned combine, which is what the Rust shift-and-add computes). -/
def i32_from_input (input : List Nat) : Option Int :=
  match input with
  | [b0, b1, b2, b3] =>
    let u : Nat := b3 * 2 ^ 24 + b2 * 2 ^ 16 + b1 * 2 ^ 8 + b0
    some (if u < 2 ^ 31 then (u : Int) else (u : Int) - 2 ^ 32)
  | _ => none

/-- `u32_from_input(&l[off..off+4])`. -/
def u32at (l : List Nat) (off : Nat) : Option Nat :=
  (readSlice l off (off + 4)).bind u32_from_input

/-- `i32_from_input(&l[off..off+4])`. -/
def i32at (l : List Nat) (off : Nat) : Option Int :=
  (readSlice l off (off + 4)).bind i32_from_input

/-! FILETIME → UTC converter (`parse_tm` in `shell_link_header.rs`). -/

/-- `time::Tm` as the source fills it (all fields `i32`). -/
structure Tm where
  tm_nsec : Int
  tm_sec : Int
  tm_min : Int
  tm_hour : Int
  tm_mday : Int
  tm_mon : Int
  tm_year : Int
  tm_wday : Int
  tm_yday : Int
  tm_isdst : Int
  tm_utcoff : Int
deriving DecidableEq, Repr

def SECOND : Nat := 10000000
def MINUTE : Nat := 60 * SECOND
def HOUR : Nat := 60 * MINUTE
def DAY : Nat := 24 * HOUR
def START_YEAR_WINDOWS : Nat := 1601
def START_YEAR_UNIX : Nat := 1900

/-- `MONTHS_LEN`: month length on a normal year and on a leap year. -/
def MONTHS_LEN : List (Nat × Nat) :=
  [(31, 31), (28, 29), (31, 31), (30, 30), (31, 31), (30, 30),
   (31, 31), (31, 31), (30, 30), (31, 31), (30, 30), (31, 31)]

/-- `fn is_year_leap_year(year: u64) -> bool`. -/
def is_year_leap_year (year : Nat) : Bool :=
  (year &&& 3) == 0 && ((year % 25) != 0 || (year &&& 15) == 0)

/-- `(START_YEAR_WINDOWS..START_YEAR_UNIX).map(...).sum()`. -/
def days_win_unix_diff : Nat :=
  ((List.range (START_YEAR_UNIX - START_YEAR_WINDOWS)).map
    (fun i => if is_year_leap_year (START_YEAR_WINDOWS + i) then 366 else 365)).sum

/-- The year-walk `while` loop of `parse_tm`, state `(day_first_january_this_year,
current_year)`.  The loop adds at least 365 days per iteration, so `target + 1`
units of fuel always suffice (proved below); on fuel exhaustion the current
state is returned. -/
def year_walk (fuel day0 year target : Nat) : Nat × Nat :=
  match fuel with
  | 0 => (day0, year)
  | fuel + 1 =>
    if day0 < target then
      let added_day := if is_year_leap_year year then 366 else 365
      if day0 + added_day > target then (day0, year)
      else year_walk fuel (day0 + added_day) (year + 1) target
    else (day0, year)

/-- The month-walk `while` loop of `parse_tm`, state `(current_month,
current_day_in_year)`.  `MONTHS_LEN[current_month]` is Rust array indexing,
which panics when `current_month ≥ 12`: modelled as `none`.  The month index
grows by 1 per iteration, so 13 units of fuel always suffice; fuel exhaustion
is also modelled as `none` and proved unreachable below. -/
def month_walk (fuel : Nat) (leap : Bool) (month dacc target : Nat) : Option (Nat × Nat) :=
  match fuel with
  | 0 => none
  | fuel + 1 =>
    if dacc < target then
      match MONTHS_LEN.get? month with
      | none => none
      | some ml =>
        let new_month_len := if leap then ml.2 else ml.1
        if dacc + new_month_len > target then some (month, dacc)
        else month_walk fuel leap (month + 1) (dacc + new_month_len) target
    else some (month, dacc)

/-- The arithmetic core of `parse_tm`: everything after the two `u32`
reads combine into the 64-bit tick count.  `saturating_sub` is `Nat`
subtraction; `none` is the month-walk panic (proved unreachable below). -/
def tm_of_ticks (input_tm_nanoseconds : Nat) : Option Tm :=
  let nanoseconds_diff := days_win_unix_diff * DAY
  let nanoseconds_since_1990 := input_tm_nanoseconds - nanoseconds_diff
  let nanos_remaining := nanoseconds_since_1990 % SECOND
  let sec_remaining := nanoseconds_since_1990 % MINUTE / SECOND
  let min_remaining := nanoseconds_since_1990 % HOUR / MINUTE
  let hours_remaining := nanoseconds_since_1990 % DAY / HOUR
  let input_in_days := nanoseconds_since_1990 / DAY
  let yw := year_walk (input_in_days + 1) 0 START_YEAR_UNIX input_in_days
  let day_in_year := input_in_days - yw.1
  let current_year := yw.2
  (month_walk 13 (is_year_leap_year current_year) 0 0 day_in_year).map (fun mw =>
    { tm_nsec := (nanos_remaining : Int)
      tm_sec := (sec_remaining : Int)
      tm_min := (min_remaining : Int)
      tm_hour := (hours_remaining : Int)
      tm_mday := ((day_in_year - mw.2 : Nat) : Int)
      tm_mon := ((mw.1 + 1 : Nat) : Int)
      tm_year := (current_year : Int)
      tm_wday := ((day_in_year % 7 : Nat) : Int)
      tm_yday := (day_in_year : Int)
      tm_isdst := -1
      tm_utcoff := 0 })

/-- `fn parse_tm(input: &[u8]) -> Option<Tm>`: asserts 8 bytes (outer `none`),
returns no timestamp on an all-zero FILETIME, otherwise decomposes the
64-bit tick count via `tm_of_ticks`. -/
def parse_tm (input : List Nat) : Option (Option Tm) :=
  if input.length ≠ 8 then none
  else if input.all (fun b => b == 0) then some none
  else
    match u32at input 0, u32at input 4 with
    | some low_bit, some high_bit =>
      (tm_of_ticks (high_bit * 2 ^ 32 + low_bit)).map some
    | _, _ => none

/-! ShowCmd (`impl From<u32> for ShowCmd` and back). -/

inductive ShowCmd where
  | ShowNormal
  | ShowMaximized
  | ShowMinNoActive
deriving DecidableEq, Repr

def SW_SHOWNORMAL : Nat := 0x00000001
def SW_SHOWMAXIMIZED : Nat := 0x00000003
def SW_SHOWMINNOACTIVE : Nat := 0x00000007

/-- `impl From<u32> for ShowCmd`: match on the `SW_*` constants, every
other value falls through to `ShowNormal`. -/
def ShowCmd.from_u32 (input : Nat) : ShowCmd :=
  if input = SW_SHOWMAXIMIZED then ShowCmd.ShowMaximized
  else if input = SW_SHOWMINNOACTIVE then ShowCmd.ShowMinNoActive
  else ShowCmd.ShowNormal

/-- `impl From<ShowCmd> for u32`. -/
def u32_from_ShowCmd (input : ShowCmd) : Nat :=
  match input with
  | ShowCmd.ShowMaximized => SW_SHOWMAXIMIZED
  | ShowCmd.ShowMinNoActive => SW_SHOWMINNOACTIVE
  | ShowCmd.ShowNormal => SW_SHOWNORMAL

/-! HotKey, HotKeyModifier, HotKeyFlags. -/

inductive HotKey where
  | Zero | One | Two | Three | Four | Five | Six | Seven | Eight | Nine
  | A | B | C | D | E | F | G | H | I | J | K | L | M | N | O
  | P | Q | R | S | T | U | V | W | X | Y | Z
  | F1 | F2 | F3 | F4 | F5 | F6 | F7 | F8 | F9 | F10 | F11 | F12
  | F13 | F14 | F15 | F16 | F17 | F18 | F19 | F20 | F21 | F22 | F23 | F24
  | NumLock | ScrollLock
deriving DecidableEq, BEq, Repr, Fintype

/-- `HOTKEY_MAP`, copied row for row from the source (63 rows — note the
source lists `(One, 0x31)`, `(One, 0x32)` and `(Two, 0x32)`). -/
def HOTKEY_MAP : List (HotKey × Nat) :=
  [(HotKey.Zero, 0x30),
   (HotKey.One, 0x31),
   (HotKey.One, 0x32),
   (HotKey.Two, 0x32),
   (HotKey.Three, 0x33),
   (HotKey.Four, 0x34),
   (HotKey.Five, 0x35),
   (HotKey.Six, 0x36),
   (HotKey.Seven, 0x37),
   (HotKey.Eight, 0x38),
   (HotKey.Nine, 0x39),
   (HotKey.A, 0x41),
   (HotKey.B, 0x42),
   (HotKey.C, 0x43),
   (HotKey.D, 0x44),
   (HotKey.E, 0x45),
   (HotKey.F, 0x46),
   (HotKey.G, 0x47),
   (HotKey.H, 0x48),
   (HotKey.I, 0x49),
   (HotKey.J, 0x4A),
   (HotKey.K, 0x4B),
   (HotKey.L, 0x4C),
   (HotKey.M, 0x4D),
   (HotKey.N, 0x4E),
   (HotKey.O, 0x4F),
   (HotKey.P, 0x50),
   (HotKey.Q, 0x51),
   (HotKey.R, 0x52),
   (HotKey.S, 0x53),
   (HotKey.T, 0x54),
   (HotKey.U, 0x55),
   (HotKey.V, 0x56),
   (HotKey.W, 0x57),
   (HotKey.X, 0x58),
   (HotKey.Y, 0x59),
   (HotKey.Z, 0x5A),
   (HotKey.F1, 0x70),
   (HotKey.F2, 0x71),
   (HotKey.F3, 0x72),
   (HotKey.F4, 0x73),
   (HotKey.F5, 0x74),
   (HotKey.F6, 0x75),
   (HotKey.F7, 0x76),
   (HotKey.F8, 0x77),
   (HotKey.F9, 0x78),
   (HotKey.F10, 0x79),
   (HotKey.F11, 0x7A),
   (HotKey.F12, 0x7B),
   (HotKey.F13, 0x7C),
   (HotKey.F14, 0x7D),
   (HotKey.F15, 0x7E),
   (HotKey.F16, 0x7F),
   (HotKey.F17, 0x80),
   (HotKey.F18, 0x81),
   (HotKey.F19, 0x82),
   (HotKey.F20, 0x83),
   (HotKey.F21, 0x84),
   (HotKey.F22, 0x85),
   (HotKey.F23, 0x86),
   (HotKey.F24, 0x87),
   (HotKey.NumLock, 0x90),
   (HotKey.ScrollLock, 0x91)]

/-- `HotKey::try_from`: first table row whose wire code matches. -/
def HotKey.try_from (input : Nat) : Option HotKey :=
  (HOTKEY_MAP.find? (fun x => x.2 == input)).map (fun out => out.1)

/-- `impl From<HotKey> for u8`: first table row whose variant matches
(the source `unwrap`s; the lookup never fails, so the `Option` stays
`some` for every variant). -/
def u8_from_HotKey (input : HotKey) : Option Nat :=
  (HOTKEY_MAP.find? (fun x => x.1 == input)).map (fun out => out.2)

inductive HotKeyModifier where
  | Shift
  | Control
  | Alt
deriving DecidableEq, BEq, Repr, Fintype

def HOTKEYF_SHIFT : Nat := 0x01
def HOTKEYF_CONTROL : Nat := 0x02
def HOTKEYF_ALT : Nat := 0x04

def HotKeyModifier.try_from (input : Nat) : Option HotKeyModifier :=
  if input = HOTKEYF_SHIFT then some HotKeyModifier.Shift
  else if input = HOTKEYF_CONTROL then some HotKeyModifier.Control
  else if input = HOTKEYF_ALT then some HotKeyModifier.Alt
  else none

def u8_from_HotKeyModifier (input : HotKeyModifier) : Option Nat :=
  match input with
  | HotKeyModifier.Shift => some HOTKEYF_SHIFT
  | HotKeyModifier.Control => some HOTKEYF_CONTROL
  | HotKeyModifier.Alt => some HOTKEYF_ALT

structure HotKeyFlags where
  hot_key : HotKey
  modifier : HotKeyModifier
deriving DecidableEq, Repr

inductive HotKeyFlagsParseError where
  | InvalidHotKey (b : Nat)
  | InvalidHotKeyModifier (b : Nat)
deriving DecidableEq, Repr

/-- `HotKeyFlags::try_from(input: &[u8])`: asserts exactly 2 bytes, then
`(0, 0)` means no hotkey; otherwise both bytes must resolve through
their lookup tables (key first). -/
def HotKeyFlags.try_from (input : List Nat) :
    Option (Except HotKeyFlagsParseError (Option HotKeyFlags)) :=
  if input.length ≠ 2 then none
  else
    match input.get? 0, input.get? 1 with
    | some hot_key, some hot_key_modifier =>
      if hot_key == 0 && hot_key_modifier == 0 then some (Except.ok none)
      else
        match HotKey.try_from hot_key with
        | none => some (Except.error (HotKeyFlagsParseError.InvalidHotKey hot_key))
        | some k =>
          match HotKeyModifier.try_from hot_key_modifier with
          | none => some (Except.error (HotKeyFlagsParseError.InvalidHotKeyModifier hot_key_modifier))
          | some m => some (Except.ok (some { hot_key := k, modifier := m }))
    | _, _ => none

/-! LinkFlags and FileAttributes: `bitflags!` bit-sets over a `u32`.
Each named constant carries exactly the mask the source writes
(`0xFFFFFFFF >> n`).  `from_bits` is the bitflags-1.x check
`bits & !Self::all().bits() == 0` (with `!` being 32-bit complement,
i.e. xor with `0xFFFFFFFF`), and `contains` is
`(self.bits & other.bits) == other.bits`. -/

structure LinkFlags where
  bits : Nat
deriving DecidableEq, Repr

def LinkFlags.HasLinkTargetIDList : Nat := 0xFFFFFFFF >>> 0
def LinkFlags.HasLinkInfo : Nat := 0xFFFFFFFF >>> 1
def LinkFlags.HasName : Nat := 0xFFFFFFFF >>> 2
def LinkFlags.HasRelativePath : Nat := 0xFFFFFFFF >>> 3
def LinkFlags.HasWorkingDir : Nat := 0xFFFFFFFF >>> 4
def LinkFlags.HasArguments : Nat := 0xFFFFFFFF >>> 5
def LinkFlags.HasIconLocation : Nat := 0xFFFFFFFF >>> 6
def LinkFlags.IsUnicode : Nat := 0xFFFFFFFF >>> 7
def LinkFlags.ForceNoLinkInfo : Nat := 0xFFFFFFFF >>> 8
def LinkFlags.HasExpString : Nat := 0xFFFFFFFF >>> 9
def LinkFlags.RunInSeparateProcess : Nat := 0xFFFFFFFF >>> 11
def LinkFlags.HasDarwinID : Nat := 0xFFFFFFFF >>> 12
def LinkFlags.RunAsUser : Nat := 0xFFFFFFFF >>> 13
def LinkFlags.HasExpIcon : Nat := 0xFFFFFFFF >>> 14
def LinkFlags.NoPidlAlias : Nat := 0xFFFFFFFF >>> 15
def LinkFlags.RunWithShimLayer : Nat := 0xFFFFFFFF >>> 17
def LinkFlags.ForceNoLinkTrack : Nat := 0xFFFFFFFF >>> 18
def LinkFlags.EnableTargetMetadata : Nat := 0xFFFFFFFF >>> 19
def LinkFlags.DisableLinkPathTracking : Nat := 0xFFFFFFFF >>> 20
def LinkFlags.DisableKnownFolderTracking : Nat := 0xFFFFFFFF >>> 21
def LinkFlags.DisableKnownFolderAlias : Nat := 0xFFFFFFFF >>> 22
def LinkFlags.AllowLinkToLink : Nat := 0xFFFFFFFF >>> 23
def LinkFlags.UnaliasOnSave : Nat := 0xFFFFFFFF >>> 24
def LinkFlags.PreferEnvironmentPath : Nat := 0xFFFFFFFF >>> 25
def LinkFlags.KeepLocalIDListForUNCTarget : Nat := 0xFFFFFFFF >>> 26

/-- `LinkFlags::all()`: the union of every declared flag constant. -/
def LinkFlags.all : Nat :=
  LinkFlags.HasLinkTargetIDList ||| LinkFlags.HasLinkInfo ||| LinkFlags.HasName |||
  LinkFlags.HasRelativePath ||| LinkFlags.HasWorkingDir ||| LinkFlags.HasArguments |||
  LinkFlags.HasIconLocation ||| LinkFlags.IsUnicode ||| LinkFlags.ForceNoLinkInfo |||
  LinkFlags.HasExpString ||| LinkFlags.RunInSeparateProcess ||| LinkFlags.HasDarwinID |||
  LinkFlags.RunAsUser ||| LinkFlags.HasExpIcon ||| LinkFlags.NoPidlAlias |||
  LinkFlags.RunWithShimLayer ||| LinkFlags.ForceNoLinkTrack ||| LinkFlags.EnableTargetMetadata |||
  LinkFlags.DisableLinkPathTracking ||| LinkFlags.DisableKnownFolderTracking |||
  LinkFlags.DisableKnownFolderAlias ||| LinkFlags.AllowLinkToLink ||| LinkFlags.UnaliasOnSave |||
  LinkFlags.PreferEnvironmentPath ||| LinkFlags.KeepLocalIDListForUNCTarget

def LinkFlags.from_bits (bits : Nat) : Option LinkFlags :=
  if bits &&& (0xFFFFFFFF ^^^ LinkFlags.all) = 0 then some { bits := bits } else none

def LinkFlags.contains (f : LinkFlags) (mask : Nat) : Bool :=
  (f.bits &&& mask) == mask

structure FileAttributes where
  bits : Nat
deriving DecidableEq, Repr

def FileAttributes.ReadOnly : Nat := 0xFFFFFFFF >>> 0
def FileAttributes.Hidden : Nat := 0xFFFFFFFF >>> 1
def FileAttributes.System : Nat := 0xFFFFFFFF >>> 2
def FileAttributes.Directory : Nat := 0xFFFFFFFF >>> 4
def FileAttributes.Archive : Nat := 0xFFFFFFFF >>> 5
def FileAttributes.Normal : Nat := 0xFFFFFFFF >>> 7
def FileAttributes.Temporary : Nat := 0xFFFFFFFF >>> 8
def FileAttributes.Sparse : Nat := 0xFFFFFFFF >>> 9
def FileAttributes.ReparsePoint : Nat := 0xFFFFFFFF >>> 10
def FileAttributes.Compressed : Nat := 0xFFFFFFFF >>> 11
def FileAttributes.Offline : Nat := 0xFFFFFFFF >>> 12
def FileAttributes.NotContentIndexed : Nat := 0xFFFFFFFF >>> 13
def FileAttributes.Encrypted : Nat := 0xFFFFFFFF >>> 14

def FileAttributes.all : Nat :=
  FileAttributes.ReadOnly ||| FileAttributes.Hidden ||| FileAttributes.System |||
  FileAttributes.Directory ||| FileAttributes.Archive ||| FileAttributes.Normal |||
  FileAttributes.Temporary ||| FileAttributes.Sparse ||| FileAttributes.ReparsePoint |||
  FileAttributes.Compressed ||| FileAttributes.Offline ||| FileAttributes.NotContentIndexed |||
  FileAttributes.Encrypted

def FileAttributes.from_bits (bits : Nat) : Option FileAttributes :=
  if bits &&& (0xFFFFFFFF ^^^ FileAttributes.all) = 0 then some { bits := bits } else none

def FileAttributes.contains (f : FileAttributes) (mask : Nat) : Bool :=
  (f.bits &&& mask) == mask

/-! The 76-byte ShellLinkHeader and its decoder. -/

structure ShellLinkHeader where
  link_flags : LinkFlags
  file_attributes : FileAttributes
  creation_time : Option Tm
  access_time : Option Tm
  write_time : Option Tm
  file_size : Nat
  icon_index : Int
  show_cmd : ShowCmd
  hot_key_flags : Option HotKeyFlags
deriving DecidableEq, Repr

inductive ShellLinkHeaderParseError where
  | InvalidHeaderLength (n : Nat)
  | CorruptHeaderLength (n : Nat)
  | CorruptHeaderClsId (clsid : Nat × Nat × Nat × Nat)
  | InvalidLinkFlags (bits : Nat)
  | InvalidFileAttributes (bits : Nat)
  | InvalidHotKeyFlags (e : HotKeyFlagsParseError)
deriving DecidableEq, Repr

def HEADER_LEN : Nat := 0x0000004C

/-- `LINK_CLSID`: `[0x00021401, 0x00000000, 0x000000C0, 0x46000000]`. -/
def LINK_CLSID : Nat × Nat × Nat × Nat := (0x00021401, 0x00000000, 0x000000C0, 0x46000000)

/-- `ShellLinkHeader::try_from(input: &[u8])`.  Field reads follow the
source order; the outer `Option` is `none` exactly where the Rust code
would panic (a range index out of bounds or a failed `assert!`). -/
def ShellLinkHeader.try_from (input : List Nat) :
    Option (Except ShellLinkHeaderParseError ShellLinkHeader) :=
  if input.length < HEADER_LEN then
    some (Except.error (ShellLinkHeaderParseError.InvalidHeaderLength input.length))
  else
    match readSlice input 0 HEADER_LEN with
    | none => none
    | some input =>
      if input.length ≠ HEADER_LEN then none
      else
        match u32at input 0 with
        | none => none
        | some header_len =>
          if header_len ≠ HEADER_LEN then
            some (Except.error (ShellLinkHeaderParseError.CorruptHeaderLength header_len))
          else
            match u32at input 4, u32at input 8, u32at input 12, u32at input 16 with
            | some c0, some c1, some c2, some c3 =>
              if (c0, c1, c2, c3) ≠ LINK_CLSID then
                some (Except.error (ShellLinkHeaderParseError.CorruptHeaderClsId (c0, c1, c2, c3)))
              else
                match u32at input 20 with
                | none => none
                | some link_flags_bytes =>
                  match LinkFlags.from_bits link_flags_bytes with
                  | none => some (Except.error (ShellLinkHeaderParseError.InvalidLinkFlags link_flags_bytes))
                  | some link_flags =>
                    match u32at input 24 with
                    | none => none
                    | some file_attributes_bytes =>
                      match FileAttributes.from_bits file_attributes_bytes with
                      | none => some (Except.error (ShellLinkHeaderParseError.InvalidFileAttributes file_attributes_bytes))
                      | some file_attributes =>
                        match (readSlice input 28 36).bind parse_tm,
                              (readSlice input 36 44).bind parse_tm,
                              (readSlice input 44 52).bind parse_tm with
                        | some creation_time, some access_time, some write_time =>
                          match u32at input 52, i32at input 56, u32at input 60 with
                          | some file_size, some icon_index, some show_cmd_bytes =>
                            let show_cmd := ShowCmd.from_u32 show_cmd_bytes
                            match (readSlice input 64 66).bind HotKeyFlags.try_from with
                            | none => none
                            | some (Except.error e) =>
                              some (Except.error (ShellLinkHeaderParseError.InvalidHotKeyFlags e))
                            | some (Except.ok hot_key_flags) =>
                              some (Except.ok
                                { link_flags := link_flags
                                  file_attributes := file_attributes
                                  creation_time := creation_time
                                  access_time := access_time
                                  write_time := write_time
                                  file_size := file_size
                                  icon_index := icon_index
                                  show_cmd := show_cmd
                                  hot_key_flags := hot_key_flags })
                          | _, _, _ => none
                        | _, _, _ => none
            | _, _, _, _ => none

/-! `lib.rs`: id list, link info, string data, extra data, and the
aggregate `ShellLink`. -/

structure ItemId where
  item_id_size : Nat
  data : List Nat
deriving DecidableEq, Repr

structure IdList where
  item_id_list : List ItemId
deriving DecidableEq, Repr

structure LinkTargetIdList where
  id_list_size : Nat
  id_list : IdList
deriving DecidableEq, Repr

inductive LinkTargetIdListParseError where
  | Unimplemented
deriving DecidableEq, Repr

/-- `LinkTargetIdList::try_from(input: &[u8])`: the source body is the
single statement `Err(Unimplemented)`. -/
def LinkTargetIdList.try_from (_input : List Nat) :
    Except LinkTargetIdListParseError LinkTargetIdList :=
  Except.error LinkTargetIdListParseError.Unimplemented

inductive DriveType where
  | Unknown | NoRootDir | Removable | Fixed | Remote | CdRom | RamDisk
deriving DecidableEq, BEq, Repr, Fintype

def DRIVE_TYPE_MAP : List (DriveType × Nat) :=
  [(DriveType.Unknown, 0x00000000),
   (DriveType.NoRootDir, 0x00000001),
   (DriveType.Removable, 0x00000002),
   (DriveType.Fixed, 0x00000003),
   (DriveType.Remote, 0x00000004),
   (DriveType.CdRom, 0x00000005),
   (DriveType.RamDisk, 0x00000006)]

def DriveType.try_from (input : Nat) : Option DriveType :=
  (DRIVE_TYPE_MAP.find? (fun x => x.2 == input)).map (fun out => out.1)

def u32_from_DriveType (input : DriveType) : Option Nat :=
  (DRIVE_TYPE_MAP.find? (fun x => x.1 == input)).map (fun out => out.2)

inductive NetworkProviderType where
  | Avid | Docuspace | Mangosoft | Sernet | Riverfront1 | Riverfront2
  | Decorb | Protstor | FjRedir | Distinct | Twins | Rdr2sample | Csc
  | _3in1 | Extendnet | Stac | Foxbat | Yahoo | Exifs | Dav | Knoware
  | ObjectDire | Masfax | HobNfs | Shiva | Ibmal | Lock | Termsrv | Srt
  | Quincy | Openafs | Avid1 | Dfs | Kwnp | Zenworks | Driveonweb
  | Vmware | Rsfx | Mfiles | MsNfs | Google
deriving DecidableEq, BEq, Repr, Fintype

def NETWORK_PROVIDER_TYPE_MAP : List (NetworkProviderType × Nat) :=
  [(NetworkProviderType.Avid, 0x001A0000),
   (NetworkProviderType.Docuspace, 0x001B0000),
   (NetworkProviderType.Mangosoft, 0x001C0000),
   (NetworkProviderType.Sernet, 0x001D0000),
   (NetworkProviderType.Riverfront1, 0x001E0000),
   (NetworkProviderType.Riverfront2, 0x001F0000),
   (NetworkProviderType.Decorb, 0x00200000),
   (NetworkProviderType.Protstor, 0x00210000),
   (NetworkProviderType.FjRedir, 0x00220000),
   (NetworkProviderType.Distinct, 0x00230000),
   (NetworkProviderType.Twins, 0x00240000),
   (NetworkProviderType.Rdr2sample, 0x00250000),
   (NetworkProviderType.Csc, 0x00260000),
   (NetworkProviderType._3in1, 0x00270000),
   (NetworkProviderType.Extendnet, 0x00290000),
   (NetworkProviderType.Stac, 0x002A0000),
   (NetworkProviderType.Foxbat, 0x002B0000),
   (NetworkProviderType.Yahoo, 0x002C0000),
   (NetworkProviderType.Exifs, 0x002D0000),
   (NetworkProviderType.Dav, 0x002E0000),
   (NetworkProviderType.Knoware, 0x002F0000),
   (NetworkProviderType.ObjectDire, 0x00300000),
   (NetworkProviderType.Masfax, 0x00310000),
   (NetworkProviderType.HobNfs, 0x00320000),
   (NetworkProviderType.Shiva, 0x00330000),
   (NetworkProviderType.Ibmal, 0x00340000),
   (NetworkProviderType.Lock, 0x00350000),
   (NetworkProviderType.Termsrv, 0x00360000),
   (NetworkProviderType.Srt, 0x00370000),
   (NetworkProviderType.Quincy, 0x00380000),
   (NetworkProviderType.Openafs, 0x00390000),
   (NetworkProviderType.Avid1, 0x003A0000),
   (NetworkProviderType.Dfs, 0x003B0000),
   (NetworkProviderType.Kwnp, 0x003C0000),
   (NetworkProviderType.Zenworks, 0x003D0000),
   (NetworkProviderType.Driveonweb, 0x003E0000),
   (NetworkProviderType.Vmware, 0x003F0000),
   (NetworkProviderType.Rsfx, 0x00400000),
   (NetworkProviderType.Mfiles, 0x00410000),
   (NetworkProviderType.MsNfs, 0x00420000),
   (NetworkProviderType.Google, 0x00430000)]

def NetworkProviderType.try_from (input : Nat) : Option NetworkProviderType :=
  (NETWORK_PROVIDER_TYPE_MAP.find? (fun x => x.2 == input)).map (fun out => out.1)

def u32_from_NetworkProviderType (input : NetworkProviderType) : Option Nat :=
  (NETWORK_PROVIDER_TYPE_MAP.find? (fun x => x.1 == input)).map (fun out => out.2)

inductive FontFamily where
  | DontCare | Roman | Swiss | Modern | Script | Decorative
deriving DecidableEq, BEq, Repr, Fintype

def FONT_FAMILY_MAP : List (FontFamily × Nat) :=
  [(FontFamily.DontCare, 0x0000),
   (FontFamily.Roman, 0x0010),
   (FontFamily.Swiss, 0x0020),
   (FontFamily.Modern, 0x0030),
   (FontFamily.Script, 0x0040),
   (FontFamily.Decorative, 0x0050)]

def FontFamily.try_from (input : Nat) : Option FontFamily :=
  (FONT_FAMILY_MAP.find? (fun x => x.2 == input)).map (fun out => out.1)

def u16_from_FontFamily (input : FontFamily) : Option Nat :=
  (FONT_FAMILY_MAP.find? (fun x => x.1 == input)).map (fun out => out.2)

inductive CursorSize where
  | Small (i : Nat)
  | Medium (i : Nat)
  | Large (i : Nat)
deriving DecidableEq, Repr

def CursorSize.try_from (input : Nat) : Option CursorSize :=
  if input ≤ 25 then some (CursorSize.Small input)
  else if input ≤ 50 then some (CursorSize.Medium input)
  else if input ≤ 100 then some (CursorSize.Large input)
  else none

structure FillAttributes where
  bits : Nat
deriving DecidableEq, Repr

structure CommonNetworkRelativeLinkFlags where
  bits : Nat
deriving DecidableEq, Repr

structure LinkInfoFlags where
  bits : Nat
deriving DecidableEq, Repr

inductive LinkInfoHeaderSize where
  | Unspecified
  | Specified (n : Nat)
deriving DecidableEq, Repr

structure VolumeId where
  volume_id_size : Nat
  drive_type : DriveType
  drive_serial_number : Nat
  volume_label_offset : Nat
  data : String
deriving DecidableEq, Repr

structure CommonNetworkRelativeLink where
  common_network_relative_link_size : Nat
  common_network_relative_link_flags : CommonNetworkRelativeLinkFlags
  net_name_offset : Nat
  network_provider_type : NetworkProviderType
  net_name_offset_unicode : Nat
  device_name_offset_unicode : Nat
  net_name : String
  device_name : String
  net_name_unicode : String
  device_name_unicode : String
deriving DecidableEq, Repr

structure LinkInfo where
  link_info_size : Nat
  link_info_size_header : LinkInfoHeaderSize
  link_info_flags : LinkInfoFlags
  volume_id_offset : Nat
  local_base_path_offset : Nat
  common_network_relative_link_offset : Nat
  common_path_suffix_offset : Nat
  local_base_path_offset_unicode : Nat
  common_path_suffix_offset_unicode : Nat
  volume_id : Option VolumeId
  local_base_path : String
  common_network_relative_link : Option CommonNetworkRelativeLink
  common_path_suffix : String
  local_base_path_unicode : Option String
  common_path_suffix_unicde : Option String
deriving DecidableEq, Repr

inductive LinkInfoParseError where
  | Unimplemented
deriving DecidableEq, Repr

/-- `LinkInfo::try_from(input: &[u8])`: the source body is the single
statement `Err(Unimplemented)`. -/
def LinkInfo.try_from (_input : List Nat) : Except LinkInfoParseError LinkInfo :=
  Except.error LinkInfoParseError.Unimplemented

structure StringData where
  count_characters : Nat
  string : String
deriving DecidableEq, Repr

structure ConsoleDataBlock where
  block_size : Nat
  fill_attributes : FillAttributes
  popup_fill_attributes : FillAttributes
  screen_buffer_size_x : Nat
  screen_buffer_size_y : Nat
  window_size_x : Nat
  window_size_y : Nat
  window_origin_x : Nat
  window_origin_y : Nat
  font_size : Nat
  font_family : FontFamily
  face_name : String
  cursor_size : CursorSize
  full_screen : Bool
  quick_edit : Bool
  insert_mode : Bool
  auto_position : Bool
  history_buffer_size : Nat
  number_of_history_buffers : Nat
  history_no_dup : Nat
  color_table : List Nat
deriving DecidableEq, Repr

structure ConsoleFeDataBlock where
  block_size : Nat
  block_signature : Nat
  code_page : Nat
deriving DecidableEq, Repr

structure DarwinDataBlock where
  block_size : Nat
  block_signature : Nat
  darwin_data_ansi : String
  darwin_data_unicode : Option String
deriving DecidableEq, Repr

structure EnvironmentVariableDataBlock where
  block_size : Nat
  block_signature : Nat
  target_ansi : String
  target_unicode : Option String
deriving DecidableEq, Repr

structure IconEnvironmentDataBlock where
  block_size : Nat
  block_signature : Nat
  target_ansi : String
  target_unicode : Option String
deriving DecidableEq, Repr

structure KnownFolderDataBlock where
  block_size : Nat
  block_signature : Nat
  known_folder_id : Nat
  offset : Nat
deriving DecidableEq, Repr

structure PropertyStoreDataBlock where
  block_size : Nat
  block_signature : Nat
  property_store : List Nat
deriving DecidableEq, Repr

structure ShimDataBlock where
  block_size : Nat
  block_signature : Nat
  layer_name : String
deriving DecidableEq, Repr

structure SpecialFolderDataBlock where
  block_size : Nat
  block_signature : Nat
  special_folder_id : Nat
  offset : Nat
deriving DecidableEq, Repr

structure TrackerDataBlock where
  block_size : Nat
  block_signature : Nat
  length : Nat
  version : Nat
  machine_id : String
  droid : Nat × Nat
  droid_birth : Nat × Nat
deriving DecidableEq, Repr

structure VistaAndAboveIdListDataBlock where
  block_size : Nat
  block_signature : Nat
  id_list : IdList
deriving DecidableEq, Repr

inductive ExtraData where
  | ConsoleProps (b : ConsoleDataBlock)
  | ConsoleFeProps (b : ConsoleFeDataBlock)
  | DarwinProps (b : DarwinDataBlock)
  | EnvironmentProps (b : EnvironmentVariableDataBlock)
  | IconEnvironmentProps (b : IconEnvironmentDataBlock)
  | KnownFolderProps (b : KnownFolderDataBlock)
  | PropertyStoreProps (b : PropertyStoreDataBlock)
  | ShimProps (b : ShimDataBlock)
  | SpecialFolderProps (b : SpecialFolderDataBlock)
  | TrackerProps (b : TrackerDataBlock)
  | VistaAndAboveIdListProps (b : VistaAndAboveIdListDataBlock)
deriving DecidableEq, Repr

inductive ShellLinkParseError where
  | HeaderParseError (e : ShellLinkHeaderParseError)
  | IdListParseError (e : LinkTargetIdListParseError)
deriving DecidableEq, Repr

structure ShellLink where
  header : ShellLinkHeader
  link_target_id_list : Option LinkTargetIdList
  link_info : Option LinkInfo
  string_data : Option StringData
  extra_data : Option ExtraData
deriving DecidableEq, Repr

/-- `ShellLink::try_from(input: &[u8])`: decode the header, then, only if
`HasLinkTargetIDList` is contained in the link flags, decode the id list
from `&input[HEADER_LEN..]`; the remaining fields are set to `None`. -/
def ShellLink.try_from (input : List Nat) : Option (Except ShellLinkParseError ShellLink) :=
  match ShellLinkHeader.try_from input with
  | none => none
  | some (Except.error e) => some (Except.error (ShellLinkParseError.HeaderParseError e))
  | some (Except.ok header) =>
    if LinkFlags.contains header.link_flags LinkFlags.HasLinkTargetIDList then
      match readSliceFrom input HEADER_LEN with
      | none => none
      | some rest =>
        match LinkTargetIdList.try_from rest with
        | Except.error e => some (Except.error (ShellLinkParseError.IdListParseError e))
        | Except.ok l =>
          some (Except.ok
            { header := header
              link_target_id_list := some l
              link_info := none
              string_data := none
              extra_data := none })
    else
      some (Except.ok
        { header := header
          link_target_id_list := none
          link_info := none
          string_data := none
          extra_data := none })

/-! Concrete test buffers.  A well-formed 76-byte header skeleton:
HeaderSize `0x4C`, the fixed `LINK_CLSID`, the given 4-byte little-endian
LinkFlags and FileAttributes words, and zeros for the three FILETIMEs,
FileSize, IconIndex, ShowCommand, HotKey and the reserved bytes
(offsets 28..76 are all zero). -/
def mkHeaderBytes (lf fa : List Nat) : List Nat :=
  [0x4C, 0, 0, 0,
   0x01, 0x14, 0x02, 0, 0, 0, 0, 0, 0xC0, 0, 0, 0, 0, 0, 0, 0x46]
  ++ lf ++ fa ++ List.replicate 48 0

/-- Header bytes with LinkFlags = 0 and FileAttributes = 0. -/
def headerBytesZero : List Nat := mkHeaderBytes [0, 0, 0, 0] [0, 0, 0, 0]

/-- Header bytes with LinkFlags = 0x400 (bit 10, not a known flag
position) and FileAttributes = 0. -/
def headerBytesUnknownLinkFlag : List Nat := mkHeaderBytes [0, 4, 0, 0] [0, 0, 0, 0]

/-- Header bytes with LinkFlags = 0 and FileAttributes = 0x8 (bit 3, not
a known attribute position). -/
def headerBytesUnknownFileAttr : List Nat := mkHeaderBytes [0, 0, 0, 0] [8, 0, 0, 0]

/-- The decoded header for `headerBytesZero`. -/
def headerZero : ShellLinkHeader :=
  { link_flags := { bits := 0 }
    file_attributes := { bits := 0 }
    creation_time := none
    access_time := none
    write_time := none
    file_size := 0
    icon_index := 0
    show_cmd := ShowCmd.ShowNormal
    hot_key_flags := none }

/-- The id-list input of §8: total-size field 8, then the record stream
`[size=6, 4 bytes of payload][size=0]`. -/
def idListStreamBytes : List Nat := [8, 0, 6, 0, 1, 2, 3, 4, 0, 0]

/-- The FILETIME tick count 116444736000000000 (1970-01-01T00:00:00Z) as
8 little-endian bytes: the value is `0x019DB1DED53E8000`. -/
def epochFiletimeBytes : List Nat := [0x00, 0x80, 0x3E, 0xD5, 0xDE, 0xB1, 0x9D, 0x01]

/-! Helper lemmas: the decoders never hit a panic site (`none`) on any
input. -/

theorem readSlice_eq_some (l : List Nat) (a b : Nat) (h1 : a ≤ b) (h2 : b ≤ l.length) :
    readSlice l a b = some ((l.drop a).take (b - a)) := by
  unfold readSlice
  rw [if_pos ⟨h1, h2⟩]

theorem readSlice_some_length (l : List Nat) (a b : Nat) (h2 : b ≤ l.length) :
    ((l.drop a).take (b - a)).length = b - a := by
  rw [List.length_take, List.length_drop]
  omega

theorem u32_from_input_eq_some (input : List Nat) (h : input.length = 4) :
    ∃ v, u32_from_input input = some v := by
  rcases input with _ | ⟨b0, _ | ⟨b1, _ | ⟨b2, _ | ⟨b3, _ | ⟨b4, t⟩⟩⟩⟩⟩ <;>
    simp_all [u32_from_input]

theorem i32_from_input_eq_some (input : List Nat) (h : input.length = 4) :
    ∃ v, i32_from_input input = some v := by
  rcases input with _ | ⟨b0, _ | ⟨b1, _ | ⟨b2, _ | ⟨b3, _ | ⟨b4, t⟩⟩⟩⟩⟩ <;>
    simp_all [i32_from_input]

theorem u32at_eq_some (l : List Nat) (off : Nat) (h : off + 4 ≤ l.length) :
    ∃ v, u32at l off = some v := by
  unfold u32at
  rw [readSlice_eq_some l off (off + 4) (by omega) h]
  obtain ⟨v, hv⟩ := u32_from_input_eq_some ((l.drop off).take (off + 4 - off))
    (by rw [readSlice_some_length l off (off + 4) h]; omega)
  exact ⟨v, by rw [Option.some_bind, hv]⟩

theorem i32at_eq_some (l : List Nat) (off : Nat) (h : off + 4 ≤ l.length) :
    ∃ v, i32at l off = some v := by
  unfold i32at
  rw [readSlice_eq_some l off (off + 4) (by omega) h]
  obtain ⟨v, hv⟩ := i32_from_input_eq_some ((l.drop off).take (off + 4 - off))
    (by rw [readSlice_some_length l off (off + 4) h]; omega)
  exact ⟨v, by rw [Option.some_bind, hv]⟩

/-- The year walk never moves past its target day count, and stops within
365 days of it (so the later month walk stays inside one year), provided
the fuel covers the distance; each loop iteration advances at least 365
days, so `365 * fuel ≥ target - day0` is maintained. -/
theorem year_walk_bound : ∀ (fuel day0 year target : Nat), day0 ≤ target →
    target - day0 ≤ 365 * fuel →
    (year_walk fuel day0 year target).1 ≤ target ∧
    target - (year_walk fuel day0 year target).1 ≤ 365 := by
  intro fuel
  induction fuel with
  | zero =>
    intro day0 year target h1 h2
    simp only [year_walk]
    omega
  | succ n ih =>
    intro day0 year target h1 h2
    simp only [year_walk]
    by_cases hlt : day0 < target
    · rw [if_pos hlt]
      have hA : 365 ≤ (if is_year_leap_year year then (366 : Nat) else 365) ∧
          (if is_year_leap_year year then (366 : Nat) else 365) ≤ 366 := by
        cases is_year_leap_year year <;> simp
      by_cases hbr : day0 + (if is_year_leap_year year then (366 : Nat) else 365) > target
      · rw [if_pos hbr]
        exact ⟨h1, by omega⟩
      · rw [if_neg hbr]
        exact ih _ _ target (by omega) (by omega)
    · rw [if_neg hlt]
      exact ⟨by omega, by omega⟩

set_option maxRecDepth 4000 in
/-- With 13 units of fuel, the month walk succeeds for every day-of-year
value up to 365 (both on leap and non-leap years): it never indexes
`MONTHS_LEN` out of bounds. -/
theorem month_walk_isSome :
    ∀ (leap : Bool) (d : Fin 366), (month_walk 13 leap 0 0 d.val).isSome = true := by
  decide

/-- The day count left over after the year walk fits inside one calendar
year. -/
theorem day_in_year_lt (target : Nat) :
    target - (year_walk (target + 1) 0 START_YEAR_UNIX target).1 < 366 := by
  have hd := (year_walk_bound (target + 1) 0 START_YEAR_UNIX target (Nat.zero_le _) (by omega)).2
  omega

/-- `tm_of_ticks` never hits the month-walk panic site: the day-of-year
stays inside one calendar year. -/
theorem tm_of_ticks_isSome (t : Nat) : (tm_of_ticks t).isSome = true := by
  unfold tm_of_ticks
  simp only [Option.isSome_map']
  exact month_walk_isSome _ ⟨_, day_in_year_lt ((t - days_win_unix_diff * DAY) / DAY)⟩

/-- `parse_tm` never panics on an 8-byte slice: the two `u32` reads are
in bounds and the month walk stays inside `MONTHS_LEN`. -/
theorem parse_tm_isSome (input : List Nat) (h : input.length = 8) :
    (parse_tm input).isSome = true := by
  unfold parse_tm
  rw [if_neg (by omega)]
  by_cases hz : input.all (fun b => b == 0)
  · rw [if_pos hz]
    rfl
  · rw [if_neg hz]
    obtain ⟨lo, hlo⟩ := u32at_eq_some input 0 (by omega)
    obtain ⟨hi, hhi⟩ := u32at_eq_some input 4 (by omega)
    rw [hlo, hhi]
    show ((tm_of_ticks (hi * 2 ^ 32 + lo)).map some).isSome = true
    rw [Option.isSome_map']
    exact tm_of_ticks_isSome (hi * 2 ^ 32 + lo)

/-- `HotKeyFlags::try_from` never panics on a 2-byte slice. -/
theorem hotKeyFlags_try_from_isSome (input : List Nat) (h : input.length = 2) :
    (HotKeyFlags.try_from input).isSome = true := by
  obtain ⟨b0, b1, rfl⟩ := List.length_eq_two.mp h
  unfold HotKeyFlags.try_from
  rw [if_neg (by simp)]
  simp only [List.get?]
  by_cases hz : (b0 == 0 && b1 == 0) = true
  · rw [if_pos hz]
    rfl
  · rw [if_neg hz]
    cases HotKey.try_from b0 with
    | none => rfl
    | some k =>
      cases HotKeyModifier.try_from b1 with
      | none => rfl
      | some m => rfl

/-- `from_bits` never rejects a `u32` for `LinkFlags`: the union of the
declared masks is already the full 32-bit word. -/
theorem linkFlags_from_bits_eq_some (bits : Nat) :
    LinkFlags.from_bits bits = some { bits := bits } := by
  unfold LinkFlags.from_bits
  rw [if_pos]
  have h : (0xFFFFFFFF ^^^ LinkFlags.all) = 0 := by decide
  rw [h]
  exact Nat.and_zero bits

/-- `from_bits` never rejects a `u32` for `FileAttributes` either. -/
theorem fileAttributes_from_bits_eq_some (bits : Nat) :
    FileAttributes.from_bits bits = some { bits := bits } := by
  unfold FileAttributes.from_bits
  rw [if_pos]
  have h : (0xFFFFFFFF ^^^ FileAttributes.all) = 0 := by decide
  rw [h]
  exact Nat.and_zero bits

/-- `ShellLinkHeader::try_from` never panics: every slice it takes is
inside the 76-byte prefix whose presence it checked first. -/
theorem shellLinkHeader_try_from_isSome (input : List Nat) :
    (ShellLinkHeader.try_from input).isSome = true := by
  unfold ShellLinkHeader.try_from
  by_cases h0 : input.length < HEADER_LEN
  · rw [if_pos h0]
    rfl
  · have h76 : HEADER_LEN ≤ input.length := Nat.le_of_not_lt h0
    rw [if_neg h0, readSlice_eq_some input 0 HEADER_LEN (Nat.zero_le _) h76]
    set l76 := (input.drop 0).take (HEADER_LEN - 0) with hdef
    have hlen : l76.length = HEADER_LEN := by
      rw [hdef]
      exact readSlice_some_length input 0 HEADER_LEN h76
    obtain ⟨v0, hv0⟩ := u32at_eq_some l76 0 (by rw [hlen]; decide)
    obtain ⟨c0, hc0⟩ := u32at_eq_some l76 4 (by rw [hlen]; decide)
    obtain ⟨c1, hc1⟩ := u32at_eq_some l76 8 (by rw [hlen]; decide)
    obtain ⟨c2, hc2⟩ := u32at_eq_some l76 12 (by rw [hlen]; decide)
    obtain ⟨c3, hc3⟩ := u32at_eq_some l76 16 (by rw [hlen]; decide)
    obtain ⟨lf, hlf⟩ := u32at_eq_some l76 20 (by rw [hlen]; decide)
    obtain ⟨fa, hfa⟩ := u32at_eq_some l76 24 (by rw [hlen]; decide)
    have hs1 : readSlice l76 28 36 = some ((l76.drop 28).take (36 - 28)) :=
      readSlice_eq_some l76 28 36 (by decide) (by rw [hlen]; decide)
    have hs2 : readSlice l76 36 44 = some ((l76.drop 36).take (44 - 36)) :=
      readSlice_eq_some l76 36 44 (by decide) (by rw [hlen]; decide)
    have hs3 : readSlice l76 44 52 = some ((l76.drop 44).take (52 - 44)) :=
      readSlice_eq_some l76 44 52 (by decide) (by rw [hlen]; decide)
    obtain ⟨t1, ht1⟩ := Option.isSome_iff_exists.mp
      (parse_tm_isSome ((l76.drop 28).take (36 - 28))
        (readSlice_some_length l76 28 36 (by rw [hlen]; decide)))
    obtain ⟨t2, ht2⟩ := Option.isSome_iff_exists.mp
      (parse_tm_isSome ((l76.drop 36).take (44 - 36))
        (readSlice_some_length l76 36 44 (by rw [hlen]; decide)))
    obtain ⟨t3, ht3⟩ := Option.isSome_iff_exists.mp
      (parse_tm_isSome ((l76.drop 44).take (52 - 44))
        (readSlice_some_length l76 44 52 (by rw [hlen]; decide)))
    obtain ⟨fs, hfs⟩ := u32at_eq_some l76 52 (by rw [hlen]; decide)
    obtain ⟨ii, hii⟩ := i32at_eq_some l76 56 (by rw [hlen]; decide)
    obtain ⟨sc, hsc⟩ := u32at_eq_some l76 60 (by rw [hlen]; decide)
    have hs4 : readSlice l76 64 66 = some ((l76.drop 64).take (66 - 64)) :=
      readSlice_eq_some l76 64 66 (by decide) (by rw [hlen]; decide)
    obtain ⟨hk, hhk⟩ := Option.isSome_iff_exists.mp
      (hotKeyFlags_try_from_isSome ((l76.drop 64).take (66 - 64))
        (readSlice_some_length l76 64 66 (by rw [hlen]; decide)))
    simp only []
    rw [if_neg (by rw [hlen]; decide : ¬ l76.length ≠ HEADER_LEN)]
    by_cases hhl : v0 ≠ HEADER_LEN
    · simp [hv0, hhl]
    · by_cases hcl : (c0, c1, c2, c3) ≠ LINK_CLSID
      · simp [hv0, hhl, hc0, hc1, hc2, hc3, hcl]
      · rcases hk with e | r <;>
          simp [hv0, hhl, hc0, hc1, hc2, hc3, hcl, hlf, hfa, hs1, hs2, hs3, ht1, ht2, ht3,
                hfs, hii, hsc, hs4, hhk, linkFlags_from_bits_eq_some,
                fileAttributes_from_bits_eq_some]

/-- A successfully decoded header needs at least 76 input bytes: the
decoder rejects shorter buffers with a typed error first. -/
theorem header_ok_min_length (input : List Nat) (hd : ShellLinkHeader)
    (h : ShellLinkHeader.try_from input = some (Except.ok hd)) :
    HEADER_LEN ≤ input.length := by
  by_contra hlt
  rw [ShellLinkHeader.try_from, if_pos (by omega)] at h
  simp at h

/-- `ShellLink::try_from` never panics: the header decoder already never
panics, and `&input[HEADER_LEN..]` is only taken after the header
guaranteed at least 76 bytes. -/
theorem shellLink_try_from_isSome (input : List Nat) :
    (ShellLink.try_from input).isSome = true := by
  unfold ShellLink.try_from
  obtain ⟨r, hr⟩ := Option.isSome_iff_exists.mp (shellLinkHeader_try_from_isSome input)
  rw [hr]
  rcases r with e | hd
  · rfl
  · simp only []
    by_cases hc : LinkFlags.contains hd.link_flags LinkFlags.HasLinkTargetIDList
    · rw [if_pos hc]
      rw [readSliceFrom, if_pos (header_ok_min_length input hd hr)]
      rfl
    · rw [if_neg hc]
      rfl

/-! Claim theorems. -/

/-- C1: the claim says every `LinkFlags`/`FileAttributes` constant is a
single-bit mask (`HasLinkTargetIDList = 0x1`, no two flags share a bit).
The source instead defines each flag as `0xFFFFFFFF >> n`, a shifted
full-word mask: `HasLinkTargetIDList` is `0xFFFFFFFF`, not `0x1`, and it
shares every one of its low 31 bits with `HasLinkInfo`; likewise
`FileAttributes::ReadOnly`. -/
theorem linkflags_constants_are_shifted_masks_not_single_bits :
    LinkFlags.HasLinkTargetIDList = 0xFFFFFFFF ∧
    LinkFlags.HasLinkTargetIDList ≠ 0x1 ∧
    LinkFlags.HasLinkInfo = 0x7FFFFFFF ∧
    LinkFlags.HasLinkInfo ≠ 0x2 ∧
    LinkFlags.HasLinkTargetIDList &&& LinkFlags.HasLinkInfo ≠ 0 ∧
    LinkFlags.KeepLocalIDListForUNCTarget = 0x3F ∧
    LinkFlags.KeepLocalIDListForUNCTarget ≠ 0x4000000 ∧
    FileAttributes.ReadOnly = 0xFFFFFFFF ∧
    FileAttributes.ReadOnly ≠ 0x1 ∧
    FileAttributes.ReadOnly &&& FileAttributes.Hidden ≠ 0 := by
  decide

/-- C2: the claim says a set bit outside the known flag positions (for
example bit 10 of LinkFlags, or bit 3 of FileAttributes) makes
`ShellLinkHeader::try_from` fail with `InvalidLinkFlags` (respectively
`InvalidFileAttributes`).  Because every flag constant is a shifted
full-word mask, `LinkFlags::all()`/`FileAttributes::all()` is
`0xFFFFFFFF` and `from_bits` accepts every 32-bit word: both decodes
succeed with the unknown bit silently kept. -/
theorem unknown_flag_bits_are_accepted_not_rejected :
    ShellLinkHeader.try_from headerBytesUnknownLinkFlag =
      some (Except.ok { headerZero with link_flags := { bits := 0x400 } }) ∧
    ShellLinkHeader.try_from headerBytesUnknownFileAttr =
      some (Except.ok { headerZero with file_attributes := { bits := 0x8 } }) := by
  decide

set_option maxRecDepth 100000 in
/-- C3: the claim says tick value 116444736000000000 decodes to
1970-01-01T00:00:00 (day of month 1).  The converter instead fills the
`time::Tm` with `tm_mday = 0` (a zero-based day offset, outside `Tm`'s
documented `[1, 31]` range), `tm_mon = 1` (where `Tm` documents 0-based
months) and `tm_year = 1970` (where `Tm` documents years since 1900);
hour, minute, second and nanosecond are all 0. -/
theorem epoch_filetime_decodes_to_day_of_month_zero :
    parse_tm epochFiletimeBytes = some (some
      { tm_nsec := 0, tm_sec := 0, tm_min := 0, tm_hour := 0, tm_mday := 0, tm_mon := 1,
        tm_year := 1970, tm_wday := 0, tm_yday := 0, tm_isdst := -1, tm_utcoff := 0 }) := by
  decide

/-- C4: the claim says the id-list record stream
`[size=6, 4 payload bytes][size=0]` (after its 2-byte total-size field)
decodes to exactly one ItemId.  The source decoder is a stub whose whole
body is `Err(Unimplemented)`, so this input — like every input — fails. -/
theorem id_list_decoder_always_fails :
    LinkTargetIdList.try_from idListStreamBytes =
      Except.error LinkTargetIdListParseError.Unimplemented := rfl

/-- C5: decoding never reads or indexes past the buffer and never fails
an internal assertion, for every input: both `ShellLink::try_from` and
`ShellLinkHeader::try_from` always reach a typed `Ok`/`Err` result
(`isSome` of the embedding, whose `none` marks each Rust panic site). -/
theorem decoding_never_panics :
    (∀ input : List Nat, (ShellLink.try_from input).isSome = true) ∧
    (∀ input : List Nat, (ShellLinkHeader.try_from input).isSome = true) :=
  ⟨shellLink_try_from_isSome, shellLinkHeader_try_from_isSome⟩

/-- C6: whenever `ShellLink::try_from` succeeds, the `link_info`,
`string_data` and `extra_data` fields of the result are `None`,
independent of the header flags: the orchestrator never populates them. -/
theorem successful_decode_leaves_tail_fields_none (input : List Nat) (sl : ShellLink)
    (h : ShellLink.try_from input = some (Except.ok sl)) :
    sl.link_info = none ∧ sl.string_data = none ∧ sl.extra_data = none := by
  rw [ShellLink.try_from] at h
  rcases hh : ShellLinkHeader.try_from input with _ | r
  · rw [hh] at h
    simp at h
  · rw [hh] at h
    rcases r with e | hd
    · simp at h
    · simp only [] at h
      by_cases hc : LinkFlags.contains hd.link_flags LinkFlags.HasLinkTargetIDList
      · rw [if_pos hc] at h
        rcases hsl : readSliceFrom input HEADER_LEN with _ | rest
        · rw [hsl] at h
          simp at h
        · rw [hsl] at h
          simp [LinkTargetIdList.try_from] at h
      · rw [if_neg hc] at h
        simp only [Option.some.injEq, Except.ok.injEq] at h
        rw [← h]
        exact ⟨rfl, rfl, rfl⟩

/-- C6 witness: the all-zero well-formed header buffer decodes to a
`ShellLink` on which the theorem applies. -/
theorem successful_decode_leaves_tail_fields_none_witness :
    ({ header := headerZero, link_target_id_list := none, link_info := none,
       string_data := none, extra_data := none } : ShellLink).link_info = none ∧
    ({ header := headerZero, link_target_id_list := none, link_info := none,
       string_data := none, extra_data := none } : ShellLink).string_data = none ∧
    ({ header := headerZero, link_target_id_list := none, link_info := none,
       string_data := none, extra_data := none } : ShellLink).extra_data = none :=
  successful_decode_leaves_tail_fields_none headerBytesZero
    { header := headerZero, link_target_id_list := none, link_info := none,
      string_data := none, extra_data := none } (by decide)

/-- C7: the claim says every wire-value table is bidirectional
(`try_from (from v) = some v` for every variant).  This holds for
`HotKeyModifier`, `DriveType`, `NetworkProviderType` and `FontFamily`,
but fails for `HotKey::Two`: `HOTKEY_MAP` contains a duplicated row
`(One, 0x32)` before `(Two, 0x32)`, so `Two` encodes to `0x32` but
`0x32` decodes back to `One`.  Every other `HotKey` variant round-trips. -/
theorem hotkey_table_roundtrip_breaks_at_two :
    ((u8_from_HotKey HotKey.Two).bind HotKey.try_from = some HotKey.One) ∧
    HotKey.One ≠ HotKey.Two ∧
    (∀ k : HotKey, k ≠ HotKey.Two → (u8_from_HotKey k).bind HotKey.try_from = some k) ∧
    (∀ m : HotKeyModifier,
      (u8_from_HotKeyModifier m).bind HotKeyModifier.try_from = some m) ∧
    (∀ d : DriveType, (u32_from_DriveType d).bind DriveType.try_from = some d) ∧
    (∀ p : NetworkProviderType,
      (u32_from_NetworkProviderType p).bind NetworkProviderType.try_from = some p) ∧
    (∀ f : FontFamily, (u16_from_FontFamily f).bind FontFamily.try_from = some f) := by
  decide

/-- C7 witness: the round-trip part applied at the concrete variant
`HotKey::A`. -/
theorem hotkey_table_roundtrip_breaks_at_two_witness :
    (u8_from_HotKey HotKey.A).bind HotKey.try_from = some HotKey.A :=
  hotkey_table_roundtrip_breaks_at_two.2.2.1 HotKey.A (by decide)

/-- C8: hotkey bytes `(0, 0)` decode to no hotkey without error; bytes
`(0x41, 0x02)` decode to key A with modifier Control; and when at least
one byte is non-zero the decode succeeds exactly when both bytes resolve
through their lookup tables, failing with `InvalidHotKey` when the key
byte does not resolve and with `InvalidHotKeyModifier` when the key
resolves but the modifier byte does not. -/
theorem hotkey_decode_characterization :
    HotKeyFlags.try_from [0, 0] = some (Except.ok none) ∧
    HotKeyFlags.try_from [0x41, 0x02] =
      some (Except.ok (some { hot_key := HotKey.A, modifier := HotKeyModifier.Control })) ∧
    (∀ b0 b1 : Nat, ¬(b0 = 0 ∧ b1 = 0) →
      ((∀ k, HotKey.try_from b0 = some k → ∀ m, HotKeyModifier.try_from b1 = some m →
          HotKeyFlags.try_from [b0, b1] =
            some (Except.ok (some { hot_key := k, modifier := m }))) ∧
       (HotKey.try_from b0 = none →
          HotKeyFlags.try_from [b0, b1] =
            some (Except.error (HotKeyFlagsParseError.InvalidHotKey b0))) ∧
       (∀ k, HotKey.try_from b0 = some k → HotKeyModifier.try_from b1 = none →
          HotKeyFlags.try_from [b0, b1] =
            some (Except.error (HotKeyFlagsParseError.InvalidHotKeyModifier b1))))) := by
  refine ⟨by decide, by decide, ?_⟩
  intro b0 b1 hnz
  have h2 : ¬((b0 == 0 && b1 == 0) = true) := by
    simp only [Bool.and_eq_true, beq_iff_eq]
    tauto
  refine ⟨?_, ?_, ?_⟩
  · intro k hk m hm
    simp [HotKeyFlags.try_from, h2, hk, hm]
  · intro hk
    simp [HotKeyFlags.try_from, h2, hk]
  · intro k hk hm
    simp [HotKeyFlags.try_from, h2, hk, hm]

/-- C8 witness: the characterization applied at the concrete bytes
`(0x41, 0x03)` (valid key, invalid modifier). -/
theorem hotkey_decode_characterization_witness :
    HotKeyFlags.try_from [0x41, 0x03] =
      some (Except.error (HotKeyFlagsParseError.InvalidHotKeyModifier 0x03)) :=
  ((hotkey_decode_characterization.2.2 0x41 0x03 (by decide)).2.2) HotKey.A (by decide)
    (by decide)

/-- C9: the `ShowCommand` conversion maps `0x3` to `ShowMaximized`,
`0x7` to `ShowMinNoActive`, and every other 32-bit value — including the
documented `0x1` — to `ShowNormal`; it can never fail. -/
theorem show_cmd_total_mapping :
    ShowCmd.from_u32 0x3 = ShowCmd.ShowMaximized ∧
    ShowCmd.from_u32 0x7 = ShowCmd.ShowMinNoActive ∧
    (∀ n : Nat, n < 2 ^ 32 → n ≠ 0x3 → n ≠ 0x7 → ShowCmd.from_u32 n = ShowCmd.ShowNormal) := by
  refine ⟨rfl, rfl, ?_⟩
  intro n _ h3 h7
  simp [ShowCmd.from_u32, SW_SHOWMAXIMIZED, SW_SHOWMINNOACTIVE, h3, h7]

/-- C9 witness: the fallback case applied at the concrete value 1. -/
theorem show_cmd_total_mapping_witness : ShowCmd.from_u32 1 = ShowCmd.ShowNormal :=
  show_cmd_total_mapping.2.2 1 (by decide) (by decide) (by decide)

/-- C10: a well-formed 76-byte header with LinkFlags 0, FileAttributes 0,
all-zero FILETIMEs, ShowCommand 0 and HotKey bytes `(0, 0)` decodes
successfully with all three timestamps and the hotkey absent and
`show_cmd = ShowNormal`. -/
theorem minimal_header_decodes_with_absent_optionals :
    ShellLinkHeader.try_from headerBytesZero = some (Except.ok headerZero) := by
  decide

end Lnk
